import Mathlib

/-!
Shallow embedding of src/state.rs of the auto-role-bot repository: a
role-synchronization bridge between Discord roles and a remote game server.
The SQLite store is modelled as lists of rows, sqlx query outcomes as an
explicit Except with an error-injection environment, and the outbound HTTP
call as an oracle describing the remote outcome.  Rust integer casts are
modelled on Int/Nat with explicit twos-complement reduction.
-/

namespace AutoRoleBot

/-- Rust cast of a u64 value (a Nat below 2^64) with the operator as to i64:
values below 2^63 are unchanged, larger ones wrap by subtracting 2^64. -/
def u64AsI64 (n : Nat) : Int :=
  if n < 9223372036854775808 then (n : Int) else (n : Int) - 18446744073709551616

/-- Rust cast of an i64 value with the operator as to i32: twos-complement
truncation to 32 bits (state.rs lines 131 and 170). -/
def i64AsI32 (n : Int) : Int :=
  (n + 2147483648) % 4294967296 - 2147483648

/-- Row of the roles table: roles(id TEXT PRIMARY KEY, discord_id INTEGER UNIQUE).
Field id is the local (globed) role identifier, discord_id the Discord role id. -/
structure Role where
  id : String
  discord_id : Int
deriving DecidableEq, Repr

/-- Row of the linked_users table: linked_users(id INTEGER PRIMARY KEY, gd_account_id INTEGER). -/
structure LinkedUser where
  id : Int
  gd_account_id : Int
deriving DecidableEq, Repr

/-- The SQLite database contents: the two tables used by state.rs. -/
structure Store where
  roles : List Role
  linked_users : List LinkedUser
deriving DecidableEq, Repr

/-- The serenity Member value consumed by sync_roles and handle_unlink:
its u64 user id and the u64 ids of the Discord roles it currently holds. -/
structure Member where
  user_id : Nat
  roles : List Nat
  display_name : String
deriving DecidableEq, Repr

/-- RoleSyncRequestData from state.rs lines 17 to 22. -/
structure RoleSyncRequestData where
  account_id : Int
  keep : List String
  remove : List String
deriving DecidableEq, Repr

/-- sqlx::Error, modelled with the one constructor state.rs distinguishes
(RowNotFound) plus an opaque message for every other store error. -/
inductive SqlxError where
  | rowNotFound
  | other (msg : String)
deriving DecidableEq, Repr

/-- RoleSyncError from state.rs lines 24 to 31. -/
inductive RoleSyncError where
  | NotLinked
  | Database (e : SqlxError)
  | ServerRequest (cause : String)
  | InternalError (msg : String)
  | ServerUpdate (status : Nat) (message : String)
deriving DecidableEq, Repr

/-- impl From sqlx::Error for RoleSyncError (state.rs lines 33 to 40):
RowNotFound collapses to NotLinked, everything else becomes Database. -/
def RoleSyncError.fromSqlx : SqlxError → RoleSyncError
  | .rowNotFound => .NotLinked
  | v => .Database v

/-- The configuration part of BotState (state.rs lines 9 to 15); the HTTP
client and the database pool are modelled separately as oracle and Store. -/
structure BotState where
  base_url : String
  server_password : String
  guild_id : Nat
deriving DecidableEq, Repr

/-- The trailing-slash handling of BotState::new (state.rs lines 60 to 62):
ends_with checks the last character and pop removes it. -/
def stripTrailingSlash (s : String) : String :=
  if s.data.getLast? = some '/' then String.mk s.data.dropLast else s

/-- BotState::new (state.rs lines 57 to 87), with the environment variables
passed as arguments. -/
def BotState.new (bot_base_url bot_server_password : String) (bot_server_id : Nat) : BotState :=
  { base_url := stripTrailingSlash bot_base_url
    server_password := bot_server_password
    guild_id := bot_server_id }

/-- Outcome of the outbound HTTP send: either a transport-level reqwest error,
or a response with a status code and a body that may fail to be read. -/
inductive HttpOutcome where
  | transportError (cause : String)
  | response (status : Nat) (bodyText : Option String)
deriving DecidableEq, Repr

/-- reqwest StatusCode::is_success: the 2xx range. -/
def statusIsSuccess (s : Nat) : Bool :=
  200 ≤ s && s < 300

/-- An HTTP outcome that _send_sync_roles_req reports as an error:
a transport failure or a non-2xx response. -/
def HttpOutcome.isRemoteFailure : HttpOutcome → Bool
  | .transportError _ => true
  | .response s _ => !(statusIsSuccess s)

/-- The observable parts of the outbound POST built in _send_sync_roles_req
(state.rs lines 194 to 199). -/
structure HttpRequest where
  url : String
  authorization : String
  body : String
deriving DecidableEq, Repr

def jsonEscapeChar (c : Char) : List Char :=
  if c = '"' ∨ c = '\\' then ['\\', c] else [c]

def jsonEscape (s : String) : String :=
  String.mk (s.data.foldr (fun c acc => jsonEscapeChar c ++ acc) [])

def jsonStringLit (s : String) : String :=
  "\"" ++ jsonEscape s ++ "\""

def jsonStringArray (l : List String) : String :=
  "[" ++ String.intercalate "," (l.map jsonStringLit) ++ "]"

/-- serde_json::to_string of RoleSyncRequestData: the derived Serialize
writes the three fields in declaration order. -/
def serializeSyncData (d : RoleSyncRequestData) : String :=
  "\x7b\"account_id\":" ++ toString d.account_id ++
    ",\"keep\":" ++ jsonStringArray d.keep ++
    ",\"remove\":" ++ jsonStringArray d.remove ++ "\x7d"

/-- The URL of the sync POST: format of base_url with /gsp/sync_roles appended
(state.rs line 196). -/
def syncUrl (base_url : String) : String :=
  base_url ++ "/gsp/sync_roles"

/-- The POST request _send_sync_roles_req issues (url, Authorization header, body). -/
def mkSyncRequest (st : BotState) (body : String) : HttpRequest :=
  { url := syncUrl st.base_url, authorization := st.server_password, body := body }

/-- The part of _send_sync_roles_req after serialization succeeded
(state.rs lines 194 to 226): send the POST and classify the outcome.
Returns the result together with the list of requests issued. -/
def performSyncPost (st : BotState) (body : String) (http : HttpOutcome) :
    Except RoleSyncError Unit × List HttpRequest :=
  let req := mkSyncRequest st body
  match http with
  | .transportError e => (.error (.ServerRequest e), [req])
  | .response status bodyText =>
    if !(statusIsSuccess status) then
      (.error (.ServerUpdate status (bodyText.getD "<no message>")), [req])
    else
      (.ok (), [req])

/-- BotState::_send_sync_roles_req (state.rs lines 179 to 226), with the
serde_json::to_string outcome and the cfg debug_assertions flag as
parameters.  none models the unreachable panic of the debug build. -/
def _send_sync_roles_req (st : BotState) (serResult : Except String String)
    (debug_assertions : Bool) (http : HttpOutcome) :
    Option (Except RoleSyncError Unit × List HttpRequest) :=
  match serResult with
  | .ok body => some (performSyncPost st body http)
  | .error _ =>
    if debug_assertions then
      none
    else
      some (.error (.InternalError "internal error in serializing data"), [])

/-- Error injection for the sqlx calls: a some field makes the corresponding
query fail with that non-RowNotFound store error. -/
structure DbEnv where
  linkedFetchErr : Option String
  rolesFetchErr : Option String
  deleteErr : Option String
deriving DecidableEq, Repr

/-- The environment in which every store query succeeds. -/
def DbEnv.clean : DbEnv := ⟨none, none, none⟩

/-- fetch_one of SELECT * FROM linked_users WHERE id = ? : the first matching
row, or RowNotFound when none matches. -/
def fetchLinkedUser (env : DbEnv) (store : Store) (user_id : Int) :
    Except SqlxError LinkedUser :=
  match env.linkedFetchErr with
  | some e => .error (.other e)
  | none =>
    match store.linked_users.find? (fun u => u.id == user_id) with
    | some u => .ok u
    | none => .error .rowNotFound

/-- BotState::get_all_roles (state.rs lines 253 to 257): fetch_all of
SELECT * FROM roles.  handle_unlink runs the identical query inline. -/
def get_all_roles (env : DbEnv) (store : Store) : Except SqlxError (List Role) :=
  match env.rolesFetchErr with
  | some e => .error (.other e)
  | none => .ok store.roles

/-- DELETE FROM linked_users WHERE id = ? (state.rs lines 157 to 159),
returning the store after the deletion. -/
def deleteLinkedUser (env : DbEnv) (store : Store) (user_id : Int) :
    Except SqlxError Store :=
  match env.deleteErr with
  | some e => .error (.other e)
  | none => .ok { store with linked_users := store.linked_users.filter (fun u => !(u.id == user_id)) }

/-- The membership test of the sync_roles loop (state.rs lines 110 to 114):
does the member hold the Discord role of this mapping row, comparing the u64
role ids cast to i64 against discord_id. -/
def memberHasRole (member_roles : List Nat) (role : Role) : Bool :=
  member_roles.any (fun id => u64AsI64 id == role.discord_id)

/-- The partition loop of sync_roles (state.rs lines 105 to 121): the id of
each row is pushed to kept when the member holds the role, else to removed. -/
def partitionRoles (member_roles : List Nat) : List Role → List String × List String
  | [] => ([], [])
  | role :: rest =>
    let kr := partitionRoles member_roles rest
    if memberHasRole member_roles role then
      (role.id :: kr.1, kr.2)
    else
      (kr.1, role.id :: kr.2)

/-- The RoleSyncRequestData built by sync_roles (state.rs lines 130 to 134). -/
def syncRequestData (linked : LinkedUser) (member_roles : List Nat)
    (db_roles : List Role) : RoleSyncRequestData :=
  { account_id := i64AsI32 linked.gd_account_id
    keep := (partitionRoles member_roles db_roles).1
    remove := (partitionRoles member_roles db_roles).2 }

/-- The RoleSyncRequestData built by handle_unlink (state.rs lines 163 to 173):
keep empty, remove the id of every roles row. -/
def unlinkRequestData (linked : LinkedUser) (db_roles : List Role) : RoleSyncRequestData :=
  { account_id := i64AsI32 linked.gd_account_id
    keep := []
    remove := db_roles.map Role.id }

/-- Observable outcome of one public entry point: its result, the store after
the call, and the outbound HTTP requests issued. -/
structure SyncOutcome where
  result : Except RoleSyncError Unit
  store : Store
  requests : List HttpRequest
deriving Repr

/-- BotState::sync_roles (state.rs lines 89 to 137). -/
def sync_roles (st : BotState) (env : DbEnv) (store : Store) (user : Member)
    (http : HttpOutcome) : SyncOutcome :=
  let user_id := u64AsI64 user.user_id
  match fetchLinkedUser env store user_id with
  | .error e => ⟨.error (RoleSyncError.fromSqlx e), store, []⟩
  | .ok linked_user =>
    match get_all_roles env store with
    | .error e => ⟨.error (RoleSyncError.fromSqlx e), store, []⟩
    | .ok db_roles =>
      let data := syncRequestData linked_user user.roles db_roles
      let rr := performSyncPost st (serializeSyncData data) http
      ⟨rr.1, store, rr.2⟩

/-- BotState::handle_unlink (state.rs lines 139 to 176): fetch the link,
fetch all roles, delete the link, then notify the server. -/
def handle_unlink (st : BotState) (env : DbEnv) (store : Store) (user : Member)
    (http : HttpOutcome) : SyncOutcome :=
  let user_id := u64AsI64 user.user_id
  match fetchLinkedUser env store user_id with
  | .error e => ⟨.error (RoleSyncError.fromSqlx e), store, []⟩
  | .ok linked_user =>
    match get_all_roles env store with
    | .error e => ⟨.error (RoleSyncError.fromSqlx e), store, []⟩
    | .ok db_roles =>
      match deleteLinkedUser env store user_id with
      | .error e => ⟨.error (RoleSyncError.fromSqlx e), store, []⟩
      | .ok store2 =>
        let data := unlinkRequestData linked_user db_roles
        let rr := performSyncPost st (serializeSyncData data) http
        ⟨rr.1, store2, rr.2⟩

/-- BotState::add_role (state.rs lines 228 to 237): INSERT INTO roles, subject
to the PRIMARY KEY on id and the UNIQUE constraint on discord_id. -/
def add_role (store : Store) (role_id : Int) (globed_role_id : String) :
    Except SqlxError Store :=
  if store.roles.any (fun r => r.id == globed_role_id) then
    .error (.other "UNIQUE constraint failed: roles.id")
  else if store.roles.any (fun r => r.discord_id == role_id) then
    .error (.other "UNIQUE constraint failed: roles.discord_id")
  else
    .ok { store with roles := store.roles ++ [⟨globed_role_id, role_id⟩] }

/-- BotState::remove_role (state.rs lines 239 to 244): DELETE FROM roles
WHERE discord_id = ? ; always succeeds. -/
def remove_role (store : Store) (role_id : Int) : Except SqlxError Store :=
  .ok { store with roles := store.roles.filter (fun r => !(r.discord_id == role_id)) }

/-- BotState::remove_role_by_globed_id (state.rs lines 246 to 251): DELETE FROM
roles WHERE id = ? ; always succeeds. -/
def remove_role_by_globed_id (store : Store) (role : String) : Except SqlxError Store :=
  .ok { store with roles := store.roles.filter (fun r => !(r.id == role)) }

/-! Helper lemmas shared by the claim theorems. -/

/-- Characterization of the sync_roles partition loop as filter plus map. -/
theorem partitionRoles_eq_filter (M : List Nat) (R : List Role) :
    partitionRoles M R =
      ((R.filter (fun r => memberHasRole M r)).map Role.id,
       (R.filter (fun r => !(memberHasRole M r))).map Role.id) := by
  induction R with
  | nil => rfl
  | cons r rest ih =>
    by_cases h : memberHasRole M r
    · simp [partitionRoles, List.filter_cons, h, ih]
    · simp [partitionRoles, List.filter_cons, h, ih]

/-- Membership in the kept list of the partition. -/
theorem mem_partition_fst (M : List Nat) (R : List Role) (x : String) :
    x ∈ (partitionRoles M R).1 ↔ ∃ r ∈ R, memberHasRole M r = true ∧ r.id = x := by
  rw [partitionRoles_eq_filter]
  simp [List.mem_map, List.mem_filter]
  constructor
  · rintro ⟨r, ⟨hr, hp⟩, hid⟩; exact ⟨r, hr, hp, hid⟩
  · rintro ⟨r, hr, hp, hid⟩; exact ⟨r, ⟨hr, hp⟩, hid⟩

/-- Membership in the removed list of the partition. -/
theorem mem_partition_snd (M : List Nat) (R : List Role) (x : String) :
    x ∈ (partitionRoles M R).2 ↔ ∃ r ∈ R, memberHasRole M r = false ∧ r.id = x := by
  rw [partitionRoles_eq_filter]
  simp [List.mem_map, List.mem_filter]
  constructor
  · rintro ⟨r, ⟨hr, hp⟩, hid⟩; exact ⟨r, hr, hp, hid⟩
  · rintro ⟨r, hr, hp, hid⟩; exact ⟨r, ⟨hr, hp⟩, hid⟩

/-- The helper records exactly one outbound POST whatever the HTTP outcome. -/
theorem performSyncPost_requests (st : BotState) (body : String) (http : HttpOutcome) :
    (performSyncPost st body http).2 = [mkSyncRequest st body] := by
  cases http with
  | transportError e => rfl
  | response s b =>
    simp only [performSyncPost]
    split <;> rfl

/-- In the clean environment the roles query returns the roles table. -/
theorem get_all_roles_clean (store : Store) :
    get_all_roles DbEnv.clean store = .ok store.roles := rfl

/-- In the clean environment the DELETE succeeds and filters the row out. -/
theorem deleteLinkedUser_clean (store : Store) (uid : Int) :
    deleteLinkedUser DbEnv.clean store uid =
      .ok { store with linked_users := store.linked_users.filter (fun u => !(u.id == uid)) } := rfl

/-! Claim theorems. -/

/-- Claim C1: for every role-mapping table R with distinct local ids (the
PRIMARY KEY on roles.id) and every member role set M, the sync_roles loop
puts the local id of a row in keep iff the member holds the mapped Discord
role, otherwise in remove; keep and remove are disjoint and together are
exactly the local ids of R. -/
theorem C1_sync_partition (M : List Nat) (R : List Role)
    (hnodup : (R.map Role.id).Nodup) :
    (∀ role ∈ R,
      (role.id ∈ (partitionRoles M R).1 ↔ memberHasRole M role = true) ∧
      (role.id ∈ (partitionRoles M R).2 ↔ memberHasRole M role = false)) ∧
    (∀ x ∈ (partitionRoles M R).1, x ∉ (partitionRoles M R).2) ∧
    ((partitionRoles M R).1 ++ (partitionRoles M R).2).Perm (R.map Role.id) := by
  have hinj := List.inj_on_of_nodup_map hnodup
  refine ⟨?_, ?_, ?_⟩
  · intro role hrole
    constructor
    · rw [mem_partition_fst]
      constructor
      · rintro ⟨r, hr, hp, hid⟩
        rwa [hinj hr hrole hid] at hp
      · intro hp; exact ⟨role, hrole, hp, rfl⟩
    · rw [mem_partition_snd]
      constructor
      · rintro ⟨r, hr, hp, hid⟩
        rwa [hinj hr hrole hid] at hp
      · intro hp; exact ⟨role, hrole, hp, rfl⟩
  · intro x hx hx2
    rw [mem_partition_fst] at hx
    rw [mem_partition_snd] at hx2
    obtain ⟨r1, hr1, hp1, hid1⟩ := hx
    obtain ⟨r2, hr2, hp2, hid2⟩ := hx2
    have : r1 = r2 := hinj hr1 hr2 (hid1.trans hid2.symm)
    rw [this, hp2] at hp1
    exact Bool.false_ne_true hp1
  · rw [partitionRoles_eq_filter]
    rw [← List.map_append]
    exact (List.filter_append_perm _ R).map Role.id

/-- Witness for C1 at the role table A to 100, B to 200, C to 300 and the
member role set containing 100 and 300. -/
theorem C1_sync_partition_witness :
    (([⟨"A", 100⟩, ⟨"B", 200⟩, ⟨"C", 300⟩] : List Role).map Role.id).Nodup ∧
    ((∀ role ∈ ([⟨"A", 100⟩, ⟨"B", 200⟩, ⟨"C", 300⟩] : List Role),
      (role.id ∈ (partitionRoles [100, 300] [⟨"A", 100⟩, ⟨"B", 200⟩, ⟨"C", 300⟩]).1 ↔
        memberHasRole [100, 300] role = true) ∧
      (role.id ∈ (partitionRoles [100, 300] [⟨"A", 100⟩, ⟨"B", 200⟩, ⟨"C", 300⟩]).2 ↔
        memberHasRole [100, 300] role = false)) ∧
    (∀ x ∈ (partitionRoles [100, 300] [⟨"A", 100⟩, ⟨"B", 200⟩, ⟨"C", 300⟩]).1,
      x ∉ (partitionRoles [100, 300] [⟨"A", 100⟩, ⟨"B", 200⟩, ⟨"C", 300⟩]).2) ∧
    ((partitionRoles [100, 300] [⟨"A", 100⟩, ⟨"B", 200⟩, ⟨"C", 300⟩]).1 ++
        (partitionRoles [100, 300] [⟨"A", 100⟩, ⟨"B", 200⟩, ⟨"C", 300⟩]).2).Perm
      (([⟨"A", 100⟩, ⟨"B", 200⟩, ⟨"C", 300⟩] : List Role).map Role.id)) :=
  ⟨by decide, C1_sync_partition [100, 300] [⟨"A", 100⟩, ⟨"B", 200⟩, ⟨"C", 300⟩] (by decide)⟩

/-- Claim C2: when the store holds no linked_users row for the member and the
linked-user query itself does not fail, both sync_roles and handle_unlink
return NotLinked, issue no HTTP request, and leave the store unchanged (so
handle_unlink deletes nothing). -/
theorem C2_not_linked (st : BotState) (env : DbEnv) (store : Store) (user : Member)
    (http : HttpOutcome)
    (henv : env.linkedFetchErr = none)
    (habsent : ∀ u ∈ store.linked_users, u.id ≠ u64AsI64 user.user_id) :
    (sync_roles st env store user http).result = .error .NotLinked ∧
    (sync_roles st env store user http).store = store ∧
    (sync_roles st env store user http).requests = [] ∧
    (handle_unlink st env store user http).result = .error .NotLinked ∧
    (handle_unlink st env store user http).store = store ∧
    (handle_unlink st env store user http).requests = [] := by
  have hfind : store.linked_users.find? (fun u => u.id == u64AsI64 user.user_id) = none := by
    rw [List.find?_eq_none]
    intro u hu
    simpa using habsent u hu
  have hf : fetchLinkedUser env store (u64AsI64 user.user_id) = .error .rowNotFound := by
    simp [fetchLinkedUser, henv, hfind]
  simp [sync_roles, handle_unlink, hf, RoleSyncError.fromSqlx]

/-- Witness for C2 with an empty linked_users table. -/
theorem C2_not_linked_witness :
    DbEnv.clean.linkedFetchErr = none ∧
    (∀ u ∈ (⟨[⟨"A", 100⟩], []⟩ : Store).linked_users, u.id ≠ u64AsI64 (⟨5, [], "u"⟩ : Member).user_id) ∧
    ((sync_roles ⟨"http://x", "pw", 1⟩ DbEnv.clean ⟨[⟨"A", 100⟩], []⟩ ⟨5, [], "u"⟩ (.response 200 none)).result = .error .NotLinked ∧
    (sync_roles ⟨"http://x", "pw", 1⟩ DbEnv.clean ⟨[⟨"A", 100⟩], []⟩ ⟨5, [], "u"⟩ (.response 200 none)).store = ⟨[⟨"A", 100⟩], []⟩ ∧
    (sync_roles ⟨"http://x", "pw", 1⟩ DbEnv.clean ⟨[⟨"A", 100⟩], []⟩ ⟨5, [], "u"⟩ (.response 200 none)).requests = [] ∧
    (handle_unlink ⟨"http://x", "pw", 1⟩ DbEnv.clean ⟨[⟨"A", 100⟩], []⟩ ⟨5, [], "u"⟩ (.response 200 none)).result = .error .NotLinked ∧
    (handle_unlink ⟨"http://x", "pw", 1⟩ DbEnv.clean ⟨[⟨"A", 100⟩], []⟩ ⟨5, [], "u"⟩ (.response 200 none)).store = ⟨[⟨"A", 100⟩], []⟩ ∧
    (handle_unlink ⟨"http://x", "pw", 1⟩ DbEnv.clean ⟨[⟨"A", 100⟩], []⟩ ⟨5, [], "u"⟩ (.response 200 none)).requests = []) :=
  ⟨rfl, by decide,
    C2_not_linked ⟨"http://x", "pw", 1⟩ DbEnv.clean ⟨[⟨"A", 100⟩], []⟩ ⟨5, [], "u"⟩
      (.response 200 none) rfl (by decide)⟩

/-- Claim C3: for a linked member, handle_unlink builds the sync request with
keep empty and remove equal to the local id of every roles row present at the
time of the call, and sends exactly that request. -/
theorem C3_unlink_request (st : BotState) (store : Store) (user : Member)
    (http : HttpOutcome) (linked : LinkedUser)
    (hlinked : fetchLinkedUser DbEnv.clean store (u64AsI64 user.user_id) = .ok linked) :
    (unlinkRequestData linked store.roles).keep = [] ∧
    (unlinkRequestData linked store.roles).remove = store.roles.map Role.id ∧
    (handle_unlink st DbEnv.clean store user http).requests =
      [mkSyncRequest st (serializeSyncData (unlinkRequestData linked store.roles))] := by
  refine ⟨rfl, rfl, ?_⟩
  simp [handle_unlink, hlinked, get_all_roles_clean, deleteLinkedUser_clean,
    performSyncPost_requests]

/-- Witness for C3 with one role row and one linked user. -/
theorem C3_unlink_request_witness :
    fetchLinkedUser DbEnv.clean ⟨[⟨"A", 100⟩], [⟨5, 42⟩]⟩
      (u64AsI64 (⟨5, [], "u"⟩ : Member).user_id) = .ok ⟨5, 42⟩ ∧
    ((unlinkRequestData ⟨5, 42⟩ (⟨[⟨"A", 100⟩], [⟨5, 42⟩]⟩ : Store).roles).keep = [] ∧
    (unlinkRequestData ⟨5, 42⟩ (⟨[⟨"A", 100⟩], [⟨5, 42⟩]⟩ : Store).roles).remove =
      (⟨[⟨"A", 100⟩], [⟨5, 42⟩]⟩ : Store).roles.map Role.id ∧
    (handle_unlink ⟨"http://x", "pw", 1⟩ DbEnv.clean ⟨[⟨"A", 100⟩], [⟨5, 42⟩]⟩ ⟨5, [], "u"⟩
        (.response 200 none)).requests =
      [mkSyncRequest ⟨"http://x", "pw", 1⟩
        (serializeSyncData (unlinkRequestData ⟨5, 42⟩ (⟨[⟨"A", 100⟩], [⟨5, 42⟩]⟩ : Store).roles))]) :=
  ⟨rfl, C3_unlink_request ⟨"http://x", "pw", 1⟩ ⟨[⟨"A", 100⟩], [⟨5, 42⟩]⟩ ⟨5, [], "u"⟩
    (.response 200 none) ⟨5, 42⟩ rfl⟩

/-- Claim C4: handle_unlink deletes the linked_users row before the remote
call, so for a linked member the row is gone from the resulting store even
when the HTTP outcome is a failure, and the remote error (ServerRequest or
ServerUpdate) is returned. -/
theorem C4_unlink_commits (st : BotState) (store : Store) (user : Member)
    (http : HttpOutcome) (linked : LinkedUser)
    (hlinked : fetchLinkedUser DbEnv.clean store (u64AsI64 user.user_id) = .ok linked)
    (hfail : http.isRemoteFailure = true) :
    (handle_unlink st DbEnv.clean store user http).store.linked_users =
      store.linked_users.filter (fun u => !(u.id == u64AsI64 user.user_id)) ∧
    ∃ e, (handle_unlink st DbEnv.clean store user http).result = .error e ∧
      ((∃ c, e = .ServerRequest c) ∨ (∃ s b, e = .ServerUpdate s b)) := by
  constructor
  · simp [handle_unlink, hlinked, get_all_roles_clean, deleteLinkedUser_clean]
  · cases http with
    | transportError c =>
      refine ⟨.ServerRequest c, ?_, Or.inl ⟨c, rfl⟩⟩
      simp [handle_unlink, hlinked, get_all_roles_clean, deleteLinkedUser_clean, performSyncPost]
    | response s b =>
      have hs : statusIsSuccess s = false := by
        simpa [HttpOutcome.isRemoteFailure] using hfail
      refine ⟨.ServerUpdate s (b.getD "<no message>"), ?_, Or.inr ⟨s, _, rfl⟩⟩
      simp [handle_unlink, hlinked, get_all_roles_clean, deleteLinkedUser_clean,
        performSyncPost, hs]

/-- Witness for C4 with a transport failure of the remote call. -/
theorem C4_unlink_commits_witness :
    fetchLinkedUser DbEnv.clean ⟨[⟨"A", 100⟩], [⟨5, 42⟩]⟩
      (u64AsI64 (⟨5, [], "u"⟩ : Member).user_id) = .ok ⟨5, 42⟩ ∧
    (HttpOutcome.transportError "connection refused").isRemoteFailure = true ∧
    ((handle_unlink ⟨"http://x", "pw", 1⟩ DbEnv.clean ⟨[⟨"A", 100⟩], [⟨5, 42⟩]⟩ ⟨5, [], "u"⟩
        (.transportError "connection refused")).store.linked_users =
      (⟨[⟨"A", 100⟩], [⟨5, 42⟩]⟩ : Store).linked_users.filter
        (fun u => !(u.id == u64AsI64 (⟨5, [], "u"⟩ : Member).user_id)) ∧
    ∃ e, (handle_unlink ⟨"http://x", "pw", 1⟩ DbEnv.clean ⟨[⟨"A", 100⟩], [⟨5, 42⟩]⟩ ⟨5, [], "u"⟩
        (.transportError "connection refused")).result = .error e ∧
      ((∃ c, e = .ServerRequest c) ∨ (∃ s b, e = .ServerUpdate s b))) :=
  ⟨rfl, rfl, C4_unlink_commits ⟨"http://x", "pw", 1⟩ ⟨[⟨"A", 100⟩], [⟨5, 42⟩]⟩ ⟨5, [], "u"⟩
    (.transportError "connection refused") ⟨5, 42⟩ rfl rfl⟩

/-- Claim C5: the remote sync helper classifies the HTTP outcome exhaustively:
a transport failure yields ServerRequest with the cause, a non-2xx response
yields ServerUpdate with the status and the body text (the placeholder when
the body cannot be read), and a 2xx response yields success. -/
theorem C5_status_classification (st : BotState) (body : String) :
    (∀ cause, performSyncPost st body (.transportError cause) =
      (.error (.ServerRequest cause), [mkSyncRequest st body])) ∧
    (∀ status bodyText, statusIsSuccess status = false →
      performSyncPost st body (.response status bodyText) =
        (.error (.ServerUpdate status (bodyText.getD "<no message>")), [mkSyncRequest st body])) ∧
    (∀ status, statusIsSuccess status = false →
      performSyncPost st body (.response status none) =
        (.error (.ServerUpdate status "<no message>"), [mkSyncRequest st body])) ∧
    (∀ status bodyText, statusIsSuccess status = true →
      performSyncPost st body (.response status bodyText) =
        (.ok (), [mkSyncRequest st body])) := by
  refine ⟨fun c => rfl, ?_, ?_, ?_⟩
  · intro status bodyText hs
    simp [performSyncPost, hs]
  · intro status hs
    simp [performSyncPost, hs]
  · intro status bodyText hs
    simp [performSyncPost, hs]

/-- Witness for C5: a 500 with body boom is rejected, a 200 succeeds. -/
theorem C5_status_classification_witness :
    statusIsSuccess 500 = false ∧ statusIsSuccess 200 = true ∧
    performSyncPost ⟨"http://x", "pw", 1⟩ "b" (.response 500 (some "boom")) =
      (.error (.ServerUpdate 500 "boom"), [mkSyncRequest ⟨"http://x", "pw", 1⟩ "b"]) ∧
    performSyncPost ⟨"http://x", "pw", 1⟩ "b" (.response 200 (some "ok")) =
      (.ok (), [mkSyncRequest ⟨"http://x", "pw", 1⟩ "b"]) :=
  ⟨by decide, by decide,
    (C5_status_classification ⟨"http://x", "pw", 1⟩ "b").2.1 500 (some "boom") (by decide),
    (C5_status_classification ⟨"http://x", "pw", 1⟩ "b").2.2.2 200 (some "ok") (by decide)⟩

/-- Claim C6: sync_roles never mutates the store, whatever the store contents,
the error injection and the HTTP outcome, and it issues at most one outbound
HTTP request. -/
theorem C6_sync_roles_frame (st : BotState) (env : DbEnv) (store : Store)
    (user : Member) (http : HttpOutcome) :
    (sync_roles st env store user http).store = store ∧
    (sync_roles st env store user http).requests.length ≤ 1 := by
  cases hf : fetchLinkedUser env store (u64AsI64 user.user_id) with
  | error e => simp [sync_roles, hf]
  | ok linked =>
    cases hr : get_all_roles env store with
    | error e => simp [sync_roles, hf, hr]
    | ok db_roles => simp [sync_roles, hf, hr, performSyncPost_requests]

/-- Claim C7: when serialization of the sync request fails, the release build
(debug_assertions false) does not reach the panic: the helper returns the
distinguishable InternalError result instead. -/
theorem C7_release_internal_error (st : BotState) (errMsg : String) (http : HttpOutcome) :
    (_send_sync_roles_req st (.error errMsg) false http).isSome = true ∧
    _send_sync_roles_req st (.error errMsg) false http =
      some (.error (.InternalError "internal error in serializing data"), []) :=
  ⟨rfl, rfl⟩

/-- Claim C8: remove_role and remove_role_by_globed_id on an identifier with
no matching row succeed and leave the store unchanged; add_role with a
discord role id already present fails with a uniqueness store error (and,
returning an error, inserts nothing). -/
theorem C8_mapping_crud (store : Store) :
    (∀ role_id : Int, (∀ r ∈ store.roles, r.discord_id ≠ role_id) →
      remove_role store role_id = .ok store) ∧
    (∀ gid : String, (∀ r ∈ store.roles, r.id ≠ gid) →
      remove_role_by_globed_id store gid = .ok store) ∧
    (∀ (role_id : Int) (gid : String), (∃ r ∈ store.roles, r.discord_id = role_id) →
      ∃ msg, add_role store role_id gid = .error (.other msg)) := by
  refine ⟨?_, ?_, ?_⟩
  · intro role_id h
    have : store.roles.filter (fun r => !(r.discord_id == role_id)) = store.roles := by
      rw [List.filter_eq_self]
      intro r hr
      simpa using h r hr
    cases store
    simp [remove_role, this]
  · intro gid h
    have : store.roles.filter (fun r => !(r.id == gid)) = store.roles := by
      rw [List.filter_eq_self]
      intro r hr
      simpa using h r hr
    cases store
    simp [remove_role_by_globed_id, this]
  · intro role_id gid h
    by_cases hid : store.roles.any (fun r => r.id == gid)
    · exact ⟨"UNIQUE constraint failed: roles.id", by simp [add_role, hid]⟩
    · have hdup : store.roles.any (fun r => r.discord_id == role_id) = true := by
        obtain ⟨r, hr, hrd⟩ := h
        simp [List.any_eq_true]
        exact ⟨r, hr, hrd⟩
      exact ⟨"UNIQUE constraint failed: roles.discord_id", by simp [add_role, hid, hdup]⟩

/-- Witness for C8 on a one-row roles table. -/
theorem C8_mapping_crud_witness :
    (∀ r ∈ (⟨[⟨"A", 100⟩], []⟩ : Store).roles, r.discord_id ≠ (200 : Int)) ∧
    (∀ r ∈ (⟨[⟨"A", 100⟩], []⟩ : Store).roles, r.id ≠ "B") ∧
    (∃ r ∈ (⟨[⟨"A", 100⟩], []⟩ : Store).roles, r.discord_id = (100 : Int)) ∧
    (remove_role ⟨[⟨"A", 100⟩], []⟩ 200 = .ok ⟨[⟨"A", 100⟩], []⟩ ∧
     remove_role_by_globed_id ⟨[⟨"A", 100⟩], []⟩ "B" = .ok ⟨[⟨"A", 100⟩], []⟩ ∧
     ∃ msg, add_role ⟨[⟨"A", 100⟩], []⟩ 100 "Z" = .error (.other msg)) :=
  ⟨by decide, by decide, by decide,
    (C8_mapping_crud ⟨[⟨"A", 100⟩], []⟩).1 200 (by decide),
    (C8_mapping_crud ⟨[⟨"A", 100⟩], []⟩).2.1 "B" (by decide),
    (C8_mapping_crud ⟨[⟨"A", 100⟩], []⟩).2.2 100 "Z" (by decide)⟩

/-- Counterexample to claim C9 as stated: BotState.new strips only one
trailing slash, so a configured base URL ending in two slashes yields a sync
URL with two slashes between the base and the path. -/
theorem C9_counterexample :
    (BotState.new "http://x//" "pw" 1).base_url = "http://x/" ∧
    syncUrl (BotState.new "http://x//" "pw" 1).base_url = "http://x//gsp/sync_roles" ∧
    syncUrl (BotState.new "http://x//" "pw" 1).base_url ≠ "http://x/gsp/sync_roles" := by
  refine ⟨by decide, by decide, by decide⟩

/-- Claim C9 as amended: construction strips at most one trailing slash, the
sync URL is the stripped base followed by /gsp/sync_roles, and whenever the
configured value ends with at most one slash the stripped base does not end
with a slash, so exactly one slash separates base and path. -/
theorem C9_amended (s pw : String) (gid : Nat)
    (h : ¬(s.data.getLast? = some '/' ∧ s.data.dropLast.getLast? = some '/')) :
    (BotState.new s pw gid).base_url = stripTrailingSlash s ∧
    syncUrl (BotState.new s pw gid).base_url = stripTrailingSlash s ++ "/gsp/sync_roles" ∧
    (stripTrailingSlash s).data.getLast? ≠ some '/' := by
  refine ⟨rfl, rfl, ?_⟩
  unfold stripTrailingSlash
  split
  · rename_i hl
    intro hc
    exact h ⟨hl, hc⟩
  · rename_i hl
    exact hl

/-- Witness for the amended C9 at a base URL with one trailing slash. -/
theorem C9_amended_witness :
    (¬(("http://x/").data.getLast? = some '/' ∧ ("http://x/").data.dropLast.getLast? = some '/')) ∧
    ((BotState.new "http://x/" "pw" 1).base_url = stripTrailingSlash "http://x/" ∧
     syncUrl (BotState.new "http://x/" "pw" 1).base_url =
       stripTrailingSlash "http://x/" ++ "/gsp/sync_roles" ∧
     (stripTrailingSlash "http://x/").data.getLast? ≠ some '/') :=
  ⟨by decide, C9_amended "http://x/" "pw" 1 (by decide)⟩

/-- Claim C10: both entry points place i64AsI32 of the stored gd_account_id in
the request; the cast is the identity on the signed 32-bit range and a
twos-complement 32-bit truncation (a different value, congruent mod 2^32 and
inside the 32-bit range) outside it. -/
theorem C10_account_id_cast :
    (∀ linked mroles droles,
      (syncRequestData linked mroles droles).account_id = i64AsI32 linked.gd_account_id) ∧
    (∀ linked droles,
      (unlinkRequestData linked droles).account_id = i64AsI32 linked.gd_account_id) ∧
    (∀ n : Int, -2147483648 ≤ n → n < 2147483648 → i64AsI32 n = n) ∧
    (∀ n : Int, (n < -2147483648 ∨ 2147483648 ≤ n) →
      i64AsI32 n ≠ n ∧ (i64AsI32 n - n) % 4294967296 = 0 ∧
      -2147483648 ≤ i64AsI32 n ∧ i64AsI32 n < 2147483648) := by
  refine ⟨fun _ _ _ => rfl, fun _ _ => rfl, ?_, ?_⟩
  · intro n h1 h2
    unfold i64AsI32
    omega
  · intro n h
    unfold i64AsI32
    omega

/-- Witness for C10 at the in-range value 5 and the out-of-range value 2^31. -/
theorem C10_account_id_cast_witness :
    (-2147483648 ≤ (5 : Int) ∧ (5 : Int) < 2147483648 ∧ i64AsI32 5 = 5) ∧
    (((2147483648 : Int) < -2147483648 ∨ (2147483648 : Int) ≥ 2147483648) ∧
      i64AsI32 2147483648 ≠ 2147483648 ∧ (i64AsI32 2147483648 - 2147483648) % 4294967296 = 0 ∧
      -2147483648 ≤ i64AsI32 2147483648 ∧ i64AsI32 2147483648 < 2147483648) :=
  ⟨⟨by decide, by decide, C10_account_id_cast.2.2.1 5 (by decide) (by decide)⟩,
   ⟨Or.inr (by decide), C10_account_id_cast.2.2.2 2147483648 (Or.inr (by decide))⟩⟩

end AutoRoleBot
